import Mathlib

/-!
# Verification of the ADBench experiment-orchestration pipeline

Shallow embedding of `adbench/run.py` (class `RunPipeline`) and of the
scoring/fitting special cases in `adbench/baseline/unsupervised/PyOD.py`
(class `PYOD`), together with proofs about the experiment grid, the dataset
admissibility filter, the per-model fault boundary, and the result-table /
snapshot discipline of the run loop.

External collaborators (the data generator, the concrete ML models, the
metrics routine and the wall clock) are modelled as function parameters:
a fallible step of a collaborator returns `Option`/`Except` values, mirroring
a Python call that may raise.
-/

namespace ADBench

/-- A feature row of one sample (numeric features, as in the numpy matrices). -/
abbrev Row : Type := List ℚ

/-- The `{X_train, y_train, X_test, y_test}` dictionary returned by
`DataGenerator.generator`.  Labels are 0 (normal) / 1 (anomalous), so the
Python `sum(y_train)` is the count of labeled anomalies. -/
structure DataSplit where
  X_train : List Row
  y_train : List ℕ
  X_test : List Row
  y_test : List ℕ

/-- Python's `str(...)` on an optional string (`str(None) = "None"`),
as used to build the file-name suffix in `RunPipeline.__init__` (run.py line 44). -/
def pyStr : Option String → String
  | none => "None"
  | some s => s

/-- The thirteen PyOD model names registered for the `unsupervise` track
(run.py lines 87-89). -/
def pyodNames : List String :=
  ["IForest", "OCSVM", "CBLOF", "COF", "COPOD", "ECOD", "HBOS", "KNN", "LODA",
   "LOF", "PCA", "SOD", "DeepSVDD"]

/-- The noise-parameter universe selected by the `noise_type` if/elif chain
(run.py lines 63-76).  An unrecognized noise kind raises `NotImplementedError`. -/
def noiseParamsFor : Option String → Except String (Option (List ℚ))
  | none => .ok none
  | some s =>
      if s = "duplicated_anomalies" then .ok (some [1, 2, 3, 4, 5, 6])
      else if s = "irrelevant_features" then .ok (some [0.00, 0.01, 0.05, 0.10, 0.25, 0.50])
      else if s = "label_contamination" then .ok (some [0.00, 0.01, 0.05, 0.10, 0.25, 0.50])
      else .error "NotImplementedError"

/-- The model registry (`model_dict` keys, in insertion order) selected by the
`parallel` if/elif chain (run.py lines 82-125).  An unrecognized track raises
`NotImplementedError`. -/
def modelsFor (par : String) : Except String (List String) :=
  if par = "unsupervise" then .ok (pyodNames ++ ["DAGMM"])
  else if par = "semi-supervise" then
    .ok ["GANomaly", "DeepSAD", "REPEN", "DevNet", "PReNet", "FEAWAD", "XGBOD"]
  else if par = "supervise" then
    .ok ["NB", "SVM", "MLP", "RF", "LGB", "XGB", "CatB", "ResNet", "FTTransformer"]
  else .error "NotImplementedError"

/-- The state of a constructed `RunPipeline` object. -/
structure Pipeline where
  mode : String
  parallel : String
  generate_duplicates : Bool
  n_samples_threshold : ℕ
  realistic_synthetic_mode : Option String
  noise_type : Option String
  suffix : String
  rla_list : List ℚ
  nla_list : List ℕ
  seed_list : List ℕ
  noise_params_list : Option (List ℚ)
  model_names : List String
deriving DecidableEq, Inhabited

/-- `RunPipeline.__init__` (run.py lines 16-125).  Returns `.error` exactly when
the Python constructor raises `NotImplementedError`: for an unrecognized
`noise_type` (checked first, lines 63-76) or an unrecognized `parallel` track
(lines 82-125).  Note that `mode` is never validated. -/
def RunPipeline.init (suffix mode parallel : String) (generate_duplicates : Bool)
    (n_samples_threshold : ℕ) (realistic_synthetic_mode noise_type : Option String) :
    Except String Pipeline :=
  match noiseParamsFor noise_type with
  | .error e => .error e
  | .ok nps =>
    match modelsFor parallel with
    | .error e => .error e
    | .ok models =>
      .ok { mode := mode
            parallel := parallel
            generate_duplicates := generate_duplicates
            n_samples_threshold := n_samples_threshold
            realistic_synthetic_mode := realistic_synthetic_mode
            noise_type := noise_type
            suffix := suffix ++ "_" ++ "type(" ++ pyStr realistic_synthetic_mode ++ ")_"
                        ++ "noise(" ++ pyStr noise_type ++ ")_" ++ parallel
            rla_list := if noise_type.isSome then [1.00]
                        else [0.00, 0.01, 0.05, 0.10, 0.25, 0.50, 0.75, 1.00]
            nla_list := [0, 1, 5, 10, 25, 50, 75, 100]
            seed_list := [1, 2, 3]
            noise_params_list := nps
            model_names := models }

/-- One experiment trial: the tuple produced by `itertools.product` in
`RunPipeline.run` (run.py lines 221-230).  `mk3` is the 3-tuple used when no
noise is configured, `mk4` the 4-tuple used when noise is configured.  The
labeling parameter `la` is a ratio or an (integer) count, depending on mode. -/
inductive Trial where
  | mk3 (dataset : Option String) (la : ℚ) (seed : ℕ)
  | mk4 (dataset : Option String) (la : ℚ) (noiseParam : ℚ) (seed : ℕ)
deriving DecidableEq

/-- The labeling parameter of a trial. -/
def Trial.la : Trial → ℚ
  | .mk3 _ la _ => la
  | .mk4 _ la _ _ => la

/-- The seed of a trial. -/
def Trial.seed : Trial → ℕ
  | .mk3 _ _ s => s
  | .mk4 _ _ _ s => s

/-- The dataset identifier of a trial (`none` for the externally-supplied
dataset placeholder). -/
def Trial.dataset : Trial → Option String
  | .mk3 d _ _ => d
  | .mk4 d _ _ _ => d

/-- The noise parameter of a trial, when present. -/
def Trial.noiseParam : Trial → Option ℚ
  | .mk3 _ _ _ => none
  | .mk4 _ _ np _ => some np

/-- `itertools.product(A, B)`: all pairs, first factor outermost. -/
def product2 (A : List α) (B : List β) : List (α × β) :=
  A.flatMap (fun a => B.map (fun b => (a, b)))

/-- `itertools.product(A, B, C)`: all triples, first factor outermost,
last factor innermost. -/
def product3 (A : List α) (B : List β) (C : List γ) : List (α × β × γ) :=
  (product2 A (product2 B C)).map (fun x => (x.1, x.2.1, x.2.2))

/-- `itertools.product(A, B, C, D)`. -/
def product4 (A : List α) (B : List β) (C : List γ) (D : List δ) :
    List (α × β × γ × δ) :=
  (product2 A (product3 B C D)).map (fun x => (x.1, x.2.1, x.2.2.1, x.2.2.2))

/-- The labeling-parameter universe picked in `RunPipeline.run`
(run.py lines 221-230): `nla_list` when `mode == 'nla'`, `rla_list` otherwise. -/
def labeling_list (p : Pipeline) : List ℚ :=
  if p.mode = "nla" then p.nla_list.map (fun n => (n : ℚ)) else p.rla_list

/-- `experiment_params` as built in `RunPipeline.run` (run.py lines 220-230):
the `itertools.product` of dataset list, labeling list, the noise-parameter
list when `noise_type` is configured, and the seed list. -/
def experiment_params (p : Pipeline) (dataset_list : List (Option String)) :
    List Trial :=
  if p.noise_type.isSome then
    (product4 dataset_list (labeling_list p) (p.noise_params_list.getD []) p.seed_list).map
      (fun x => Trial.mk4 x.1 x.2.1 x.2.2.1 x.2.2.2)
  else
    (product3 dataset_list (labeling_list p) p.seed_list).map
      (fun x => Trial.mk3 x.1 x.2.1 x.2.2)

/-! ## Dataset filter (run.py lines 128-163) -/

/-- Combined train+test sample count of the split produced for a dataset under
one seed (`len(data['y_train']) + len(data['y_test'])`). -/
def sizeAt (genF : ℕ → String → DataSplit) (seed : ℕ) (d : String) : ℕ :=
  (genF seed d).y_train.length + (genF seed d).y_test.length

/-- The body of the per-seed loop of `RunPipeline.dataset_filter`
(run.py lines 136-152): updates the `add` flag for one seed. -/
def seedCheck (p : Pipeline) (genF : ℕ → String → DataSplit) (d : String)
    (add : Bool) (seed : ℕ) : Bool :=
  if !p.generate_duplicates
      && decide ((genF seed d).y_train.length + (genF seed d).y_test.length
          < p.n_samples_threshold) then
    false
  else if p.mode = "nla"
      && decide (p.nla_list.getLast?.getD 0 ≤ (genF seed d).y_train.sum) then
    add
  else if p.mode = "rla" && decide (0 < (genF seed d).y_train.sum) then
    add
  else
    false

/-- `RunPipeline.dataset_filter` (run.py lines 128-163): keep the datasets whose
`add` flag survives the seed loop, then return them sorted ascending by the
combined sample count of the split held in `data` after the loop, i.e. the
split produced under the last configured seed (`np.argsort(dataset_size)`).
The generator `genF` is the external data collaborator, called with
`la=1.00, at_least_one_labeled=True`. -/
def dataset_filter (p : Pipeline) (genF : ℕ → String → DataSplit)
    (orgList : List String) : List String :=
  let kept := orgList.filter (fun d => p.seed_list.foldl (seedCheck p genF d) true)
  let lastSeed := p.seed_list.getLast?.getD 0
  kept.mergeSort (fun a b => decide (sizeAt genF lastSeed a ≤ sizeAt genF lastSeed b))

/-- One step of the seed loop of `dataset_filter` when the external generator
may raise: the generator call at run.py line 139 sits outside any try/except,
so a raised exception propagates out of the loop.  On success the `add` update
is exactly `seedCheck` on the generated split. -/
def seedCheckE (p : Pipeline) (genE : ℕ → String → Except String DataSplit)
    (d : String) (acc : Except String Bool) (seed : ℕ) : Except String Bool :=
  match acc with
  | .error e => .error e
  | .ok add =>
      match genE seed d with
      | .error e => .error e
      | .ok data => .ok (seedCheck p (fun _ _ => data) d add seed)

/-- `RunPipeline.dataset_filter` (run.py lines 128-163) with a fallible
generator: the first generator exception propagates out of the filter — and
hence out of `RunPipeline.run`, which calls the filter outside any try/except
(run.py line 213) — so it aborts the whole run instead of being skipped.  On a
run without generator exceptions this agrees with `dataset_filter`
(`dataset_filterE_ok`). -/
def dataset_filterE (p : Pipeline) (genE : ℕ → String → Except String DataSplit)
    (orgList : List String) : Except String (List String) :=
  match orgList.mapM (fun d => p.seed_list.foldl (seedCheckE p genE d) (Except.ok true)) with
  | .error e => .error e
  | .ok flags =>
      let kept := ((orgList.zip flags).filter (fun q => q.2)).map Prod.fst
      let size : String → ℕ := fun d =>
        match genE (p.seed_list.getLast?.getD 0) d with
        | .ok data => data.y_train.length + data.y_test.length
        | .error _ => 0
      .ok (kept.mergeSort (fun a b => decide (size a ≤ size b)))

/-! ## Model fitting (run.py lines 166-207, PyOD.py lines 149-154, 186-189) -/

/-- The argument shape of `predict_score` in `RunPipeline.model_fit`
(run.py lines 186-189): DAGMM is scored with both train and test features,
every other model with test features only. -/
inductive ScoreInput where
  | both (X_train X_test : List Row)
  | testOnly (X_test : List Row)
deriving DecidableEq

/-- The scoring dispatch of `RunPipeline.model_fit` (run.py lines 186-189). -/
def scoreInput (model_name : String) (Xtr Xte : List Row) : ScoreInput :=
  if model_name = "DAGMM" then .both Xtr Xte else .testOnly Xte

/-- The training-data restriction performed at the top of `PYOD.fit`
(PyOD.py lines 149-154): autoencoder-style models (`AutoEncoder`, `VAE`) are
fit on only the rows whose label is 0 (the normal samples); all other model
names receive the training split unchanged. -/
def PYOD.fitFilter (model_name : String) (X_train : List Row) (y_train : List ℕ) :
    List Row × List ℕ :=
  if model_name = "AutoEncoder" ∨ model_name = "VAE" then
    ((X_train.zip y_train).filter (fun q => q.2 == 0)).unzip
  else
    (X_train, y_train)

/-- An undefined-or-defined metric cell: `np.nan` or a real value. -/
inductive MVal where
  | nan
  | val (q : ℚ)
deriving DecidableEq

/-- A fitted model: `predict_score` may raise (`none`); on success it returns
the score vector together with the measured wall-clock inference time. -/
structure Fitted where
  predict_score : ScoreInput → Option (List ℚ × ℚ)

/-- An instantiated model adapter: `fit` may raise; on success it returns the
fitted model together with the measured wall-clock fit time. -/
structure AdapterInst where
  fit : List Row → List ℕ → Option (Fitted × ℚ)

/-- A model adapter class: instantiation (`clf(seed=..., model_name=...)`)
may itself raise, in which case `none`. -/
structure Adapter where
  init : Option AdapterInst

/-- The external metrics collaborator `utils.metric(y_true, y_score)`:
may raise; on success returns `(aucroc, aucpr)`. -/
abbrev Metric := List ℕ → List ℚ → Option (ℚ × ℚ)

/-- Instantiation followed by fitting (run.py lines 167-182): `none` when the
adapter's construction raised (in which case the subsequent `fit` call on the
bare class object raises as well) or when `fit` itself raised. -/
def mfFitted (ad : Adapter) (data : DataSplit) : Option (Fitted × ℚ) :=
  ad.init.bind (fun inst => inst.fit data.X_train data.y_train)

/-- ... followed by scoring (run.py lines 185-190), with the DAGMM
both-splits special case. -/
def mfScore (ad : Adapter) (name : String) (data : DataSplit) :
    Option (List ℚ × ℚ) :=
  (mfFitted ad data).bind
    (fun f => f.1.predict_score (scoreInput name data.X_train data.X_test))

/-- ... followed by metric computation (run.py line 193). -/
def mfMetric (ad : Adapter) (me : Metric) (name : String) (data : DataSplit) :
    Option (ℚ × ℚ) :=
  (mfScore ad name data).bind (fun s => me data.y_test s.1)

/-- `RunPipeline.model_fit` (run.py lines 166-207): if every step of the
fit/score/metric `try` block succeeds, return the two measured times and the
metric values; if any step raises, the `except` branch returns
`(None, None, {'aucroc': nan, 'aucpr': nan})`.  Total: never raises. -/
def model_fit (ad : Adapter) (me : Metric) (name : String) (data : DataSplit) :
    Option ℚ × Option ℚ × MVal × MVal :=
  match mfFitted ad data, mfScore ad name data, mfMetric ad me name data with
  | some ft, some sc, some m => (some ft.2, some sc.2, MVal.val m.1, MVal.val m.2)
  | _, _, _ => (none, none, MVal.nan, MVal.nan)

/-! ## The run loop (run.py lines 210-328) -/

/-- A result table (`df_AUCROC` / `df_AUCPR`): cells written so far, in write
order, keyed by (trial row index, model name). -/
abbrev MTable := List ((ℕ × String) × MVal)

/-- A time table (`df_time_fit` / `df_time_inference`). -/
abbrev TTable := List ((ℕ × String) × Option ℚ)

/-- One `to_csv` snapshot group (run.py lines 296-303): the four files written
after one model-fit call, each holding the full current table. -/
structure Snapshot where
  fileA : String × MTable
  fileP : String × MTable
  fileF : String × TTable
  fileI : String × TTable
deriving DecidableEq

/-- One entry of the `results` list built by `RunPipeline.run`
(`[params, model_name, metrics, time_fit, time_inference]`, run.py line 286). -/
structure ResultRow where
  params : Trial
  model_name : String
  aucroc : MVal
  aucpr : MVal
  time_fit : Option ℚ
  time_inference : Option ℚ
deriving DecidableEq

/-- The observable state of `RunPipeline.run`: the four result tables, the
`results` list, and the chronological sequence of CSV snapshot groups. -/
structure RunOutput where
  dfAUCROC : MTable
  dfAUCPR : MTable
  df_time_fit : TTable
  df_time_inference : TTable
  results : List ResultRow
  saves : List Snapshot
deriving DecidableEq

/-- The per-trial data generator as called in `RunPipeline.run`
(run.py lines 254-277): seed, dataset, labeling parameter, optional noise
parameter; `none` when `generator` raises. -/
abbrev Gen := ℕ → Option String → ℚ → Option ℚ → Option DataSplit

/-- The body of the inner model loop of `RunPipeline.run`
(run.py lines 280-303): fit and test one model, append one cell to each of the
four tables and one row to `results`, then serialize all four tables. -/
def modelStep (p : Pipeline) (ad : String → Adapter) (me : Metric)
    (data : DataSplit) (i : ℕ) (tr : Trial) (st : RunOutput) (name : String) :
    RunOutput :=
  let r := model_fit (ad name) me name data
  let dfA := st.dfAUCROC ++ [((i, name), r.2.2.1)]
  let dfP := st.dfAUCPR ++ [((i, name), r.2.2.2)]
  let dfF := st.df_time_fit ++ [((i, name), r.1)]
  let dfI := st.df_time_inference ++ [((i, name), r.2.1)]
  { dfAUCROC := dfA
    dfAUCPR := dfP
    df_time_fit := dfF
    df_time_inference := dfI
    results := st.results ++ [⟨tr, name, r.2.2.1, r.2.2.2, r.1, r.2.1⟩]
    saves := st.saves ++
      [{ fileA := ("AUCROC_" ++ p.suffix ++ ".csv", dfA)
         fileP := ("AUCPR_" ++ p.suffix ++ ".csv", dfP)
         fileF := ("Time(fit)_" ++ p.suffix ++ ".csv", dfF)
         fileI := ("Time(inference)_" ++ p.suffix ++ ".csv", dfI) }] }

/-- The body of the outer trial loop of `RunPipeline.run`
(run.py lines 244-303): skip unsupervised trials with nonzero labeling
parameter when no noise is configured (lines 250-251); skip the trial when data
generation raises (lines 257-277); otherwise run every registered model. -/
def processTrial (p : Pipeline) (gen : Gen) (ad : String → Adapter) (me : Metric)
    (i : ℕ) (tr : Trial) (st : RunOutput) : RunOutput :=
  if p.parallel = "unsupervise" ∧ tr.la ≠ 0 ∧ p.noise_type = none then st
  else
    match gen tr.seed tr.dataset tr.la tr.noiseParam with
    | none => st
    | some data => p.model_names.foldl (modelStep p ad me data i tr) st

/-- The enumerated trial loop (`for i, params in enumerate(experiment_params)`). -/
def runAux (p : Pipeline) (gen : Gen) (ad : String → Adapter) (me : Metric) :
    ℕ → List Trial → RunOutput → RunOutput
  | _, [], st => st
  | i, tr :: rest, st =>
      runAux p gen ad me (i + 1) rest (processTrial p gen ad me i tr st)

/-- The empty initial state of `RunPipeline.run`. -/
def emptyOut : RunOutput := ⟨[], [], [], [], [], []⟩

/-- The trial loop of `RunPipeline.run`, started at row index 0 on empty tables. -/
def runLoop (p : Pipeline) (gen : Gen) (ad : String → Adapter) (me : Metric)
    (trials : List Trial) : RunOutput :=
  runAux p gen ad me 0 trials emptyOut

/-- `RunPipeline.run` in the pooled-dataset, registry-models configuration
(`dataset=None, clf=None`): filter the dataset pool, build the experiment grid,
then execute the trial loop. -/
def RunPipeline.run (p : Pipeline) (genF : ℕ → String → DataSplit) (gen : Gen)
    (ad : String → Adapter) (me : Metric) (orgList : List String) : RunOutput :=
  runLoop p gen ad me (experiment_params p ((dataset_filter p genF orgList).map some))

/-- Invariant of the run state tying the four tables together: all four tables
carry the same keys, written at most once, with row indices below the current
trial index, and one cell per `results` row. -/
structure KeysInv (i : ℕ) (st : RunOutput) : Prop where
  keysP : st.dfAUCPR.map Prod.fst = st.dfAUCROC.map Prod.fst
  keysF : st.df_time_fit.map Prod.fst = st.dfAUCROC.map Prod.fst
  keysI : st.df_time_inference.map Prod.fst = st.dfAUCROC.map Prod.fst
  nodup : (st.dfAUCROC.map Prod.fst).Nodup
  bound : ∀ k ∈ st.dfAUCROC.map Prod.fst, k.1 < i
  lenR : st.dfAUCROC.length = st.results.length

/-- Invariant of the run state describing the snapshot history: one snapshot
group per model-fit call, and the k-th group holds the four files, each with
the full table as of the (k+1)-st write. -/
structure SavesInv (p : Pipeline) (st : RunOutput) : Prop where
  lenA : st.saves.length = st.dfAUCROC.length
  lenP : st.dfAUCPR.length = st.dfAUCROC.length
  lenF : st.df_time_fit.length = st.dfAUCROC.length
  lenI : st.df_time_inference.length = st.dfAUCROC.length
  lenR : st.results.length = st.dfAUCROC.length
  snap : ∀ k, k < st.saves.length →
    st.saves[k]? = some
      { fileA := ("AUCROC_" ++ p.suffix ++ ".csv", st.dfAUCROC.take (k + 1))
        fileP := ("AUCPR_" ++ p.suffix ++ ".csv", st.dfAUCPR.take (k + 1))
        fileF := ("Time(fit)_" ++ p.suffix ++ ".csv", st.df_time_fit.take (k + 1))
        fileI := ("Time(inference)_" ++ p.suffix ++ ".csv",
            st.df_time_inference.take (k + 1)) }

/-! ## Concrete instances used to exercise the theorems -/

/-- The pipeline constructed by
`RunPipeline(suffix='exp', mode='rla', parallel='unsupervise')`. -/
def pU : Pipeline :=
  (RunPipeline.init "exp" "rla" "unsupervise" true 1000 none none).toOption.getD default

/-- The pipeline constructed with `noise_type='duplicated_anomalies'`. -/
def pDup : Pipeline :=
  (RunPipeline.init "exp" "rla" "unsupervise" true 1000 none
    (some "duplicated_anomalies")).toOption.getD default

/-- A small pipeline state with a single registered model, for exercising the
run loop on concrete inputs. -/
def pTiny : Pipeline :=
  { mode := "rla", parallel := "unsupervise", generate_duplicates := true,
    n_samples_threshold := 1000, realistic_synthetic_mode := none, noise_type := none,
    suffix := "S", rla_list := [0, 1], nla_list := [0, 1, 5, 10, 25, 50, 75, 100],
    seed_list := [1], noise_params_list := none, model_names := ["M"] }

/-- A concrete two-sample data split. -/
def dataC : DataSplit := ⟨[[1]], [0], [[2]], [1]⟩

/-- A metrics collaborator that always succeeds. -/
def meTriv : Metric := fun _ _ => some (1, 1)

/-- An adapter whose `fit` always raises. -/
def adFail : Adapter := ⟨some ⟨fun _ _ => none⟩⟩

/-- An adapter that always succeeds. -/
def adOk : Adapter := ⟨some ⟨fun _ _ => some (⟨fun _ => some ([1], 1)⟩, 1)⟩⟩

/-- A per-trial data generator that always succeeds. -/
def genOk : Gen := fun _ _ _ _ => some dataC

/-- A per-trial data generator that always raises. -/
def genNone : Gen := fun _ _ _ _ => none

/-- A filter-time data generator producing a fixed split with one labeled
anomaly in the training set. -/
def genC : ℕ → String → DataSplit := fun _ _ => ⟨[[1]], [1], [[2]], [0]⟩

/-- A one-trial grid. -/
def trialsC : List Trial := [Trial.mk3 (some "d") 0 1]

/-! ## Cartesian-product structure of the experiment grid -/

theorem product2_length (A : List α) (B : List β) :
    (product2 A B).length = A.length * B.length := by
  induction A with
  | nil => simp [product2]
  | cons a A ih =>
      have hcons : product2 (a :: A) B = B.map (fun b => (a, b)) ++ product2 A B := rfl
      rw [hcons, List.length_append, List.length_map, ih, List.length_cons]
      ring

theorem product2_getElem? {A : List α} {B : List β} {i j : ℕ} {a : α} {b : β}
    (ha : A[i]? = some a) (hb : B[j]? = some b) :
    (product2 A B)[i * B.length + j]? = some (a, b) := by
  induction A generalizing i with
  | nil => simp at ha
  | cons x A ih =>
      have hcons : product2 (x :: A) B = B.map (fun b => (x, b)) ++ product2 A B := rfl
      have hj : j < B.length := by
        obtain ⟨h, -⟩ := List.getElem?_eq_some.mp hb
        exact h
      cases i with
      | zero =>
          simp only [List.getElem?_cons_zero, Option.some.injEq] at ha
          subst ha
          rw [hcons, Nat.zero_mul, Nat.zero_add, List.getElem?_append,
            if_pos (by simpa using hj), List.getElem?_map, hb]
          rfl
      | succ i =>
          simp only [List.getElem?_cons_succ] at ha
          have hidx : (i + 1) * B.length + j = B.length + (i * B.length + j) := by ring
          rw [hcons, hidx, List.getElem?_append_right (by simp)]
          simp only [List.length_map, Nat.add_sub_cancel_left]
          exact ih ha

theorem product3_length (A : List α) (B : List β) (C : List γ) :
    (product3 A B C).length = A.length * (B.length * C.length) := by
  simp [product3, product2_length]

theorem product3_getElem? {A : List α} {B : List β} {C : List γ} {i j k : ℕ}
    {a : α} {b : β} {c : γ} (ha : A[i]? = some a) (hb : B[j]? = some b)
    (hc : C[k]? = some c) :
    (product3 A B C)[i * (B.length * C.length) + (j * C.length + k)]? = some (a, b, c) := by
  have h2 : (product2 B C)[j * C.length + k]? = some (b, c) := product2_getElem? hb hc
  have h3 := product2_getElem? ha h2
  rw [product2_length] at h3
  simp [product3, List.getElem?_map, h3]

theorem product4_length (A : List α) (B : List β) (C : List γ) (D : List δ) :
    (product4 A B C D).length = A.length * (B.length * (C.length * D.length)) := by
  simp [product4, product2_length, product3_length]

theorem product4_getElem? {A : List α} {B : List β} {C : List γ} {D : List δ}
    {i j k m : ℕ} {a : α} {b : β} {c : γ} {d : δ}
    (ha : A[i]? = some a) (hb : B[j]? = some b) (hc : C[k]? = some c)
    (hd : D[m]? = some d) :
    (product4 A B C D)[i * (B.length * (C.length * D.length))
        + (j * (C.length * D.length) + (k * D.length + m))]? = some (a, b, c, d) := by
  have h3 : (product3 B C D)[j * (C.length * D.length) + (k * D.length + m)]?
      = some (b, c, d) := product3_getElem? hb hc hd
  have h4 := product2_getElem? ha h3
  rw [product3_length] at h4
  simp [product4, List.getElem?_map, h4]

/-- **C1.** For every dataset list, labeling-value list, optional
noise-parameter list and seed list, the experiment grid built by
`RunPipeline.run` is exactly the Cartesian product of those universes in the
fixed nesting order dataset outermost, labeling parameter next, noise parameter
(when noise is configured) next, seed innermost; its length equals the product
of the input universe sizes, and repeated calls with identical inputs produce
the identical sequence. -/
theorem grid_is_cartesian_product (p : Pipeline) (ds : List (Option String)) :
    (p.noise_type = none →
      (experiment_params p ds).length
          = ds.length * ((labeling_list p).length * p.seed_list.length) ∧
      ∀ i j k d la sd, ds[i]? = some d → (labeling_list p)[j]? = some la →
        p.seed_list[k]? = some sd →
        (experiment_params p ds)[i * ((labeling_list p).length * p.seed_list.length)
            + (j * p.seed_list.length + k)]? = some (Trial.mk3 d la sd)) ∧
    (∀ nps, p.noise_params_list = some nps → p.noise_type.isSome = true →
      (experiment_params p ds).length
          = ds.length * ((labeling_list p).length * (nps.length * p.seed_list.length)) ∧
      ∀ i j k m d la np sd, ds[i]? = some d → (labeling_list p)[j]? = some la →
        nps[k]? = some np → p.seed_list[m]? = some sd →
        (experiment_params p ds)[i * ((labeling_list p).length
              * (nps.length * p.seed_list.length))
            + (j * (nps.length * p.seed_list.length) + (k * p.seed_list.length + m))]?
          = some (Trial.mk4 d la np sd)) ∧
    (∀ q es, p = q → ds = es → experiment_params p ds = experiment_params q es) := by
  refine ⟨fun h => ?_, fun nps hnp hs => ?_, fun q es h1 h2 => by rw [h1, h2]⟩
  · have he : experiment_params p ds
        = (product3 ds (labeling_list p) p.seed_list).map
            (fun x => Trial.mk3 x.1 x.2.1 x.2.2) := by
      simp [experiment_params, h]
    refine ⟨?_, ?_⟩
    · rw [he, List.length_map, product3_length]
    · intro i j k d la sd ha hb hc
      rw [he, List.getElem?_map, product3_getElem? ha hb hc]
      rfl
  · have he : experiment_params p ds
        = (product4 ds (labeling_list p) nps p.seed_list).map
            (fun x => Trial.mk4 x.1 x.2.1 x.2.2.1 x.2.2.2) := by
      simp [experiment_params, hs, hnp]
    refine ⟨?_, ?_⟩
    · rw [he, List.length_map, product4_length]
    · intro i j k m d la np sd ha hb hc hd
      rw [he, List.getElem?_map, product4_getElem? ha hb hc hd]
      rfl

/-- Witness for C1: in the no-noise grid over two datasets, the trial at flat
position 1·(8·3) + (0·3 + 2) is (second dataset, first ratio, third seed). -/
theorem grid_is_cartesian_product_witness :
    (experiment_params pU [some "d1", some "d2"])[1 * ((labeling_list pU).length
        * pU.seed_list.length) + (0 * pU.seed_list.length + 2)]?
      = some (Trial.mk3 (some "d2") 0.00 3) :=
  ((grid_is_cartesian_product pU [some "d1", some "d2"]).1 rfl).2 1 0 2
    (some "d2") 0.00 3 (by rfl) (by rfl) (by rfl)

/-! ## Construction-time configuration -/

theorem init_fields {sfx mode par : String} {gd : Bool} {thr : ℕ}
    {rsm nt : Option String} {p : Pipeline}
    (hp : RunPipeline.init sfx mode par gd thr rsm nt = .ok p) :
    p.mode = mode ∧ p.parallel = par ∧ p.generate_duplicates = gd ∧
    p.n_samples_threshold = thr ∧ p.realistic_synthetic_mode = rsm ∧
    p.noise_type = nt ∧
    p.suffix = sfx ++ "_" ++ "type(" ++ pyStr rsm ++ ")_" ++ "noise("
        ++ pyStr nt ++ ")_" ++ par ∧
    p.rla_list = (if nt.isSome then [1.00]
        else [0.00, 0.01, 0.05, 0.10, 0.25, 0.50, 0.75, 1.00]) ∧
    p.nla_list = [0, 1, 5, 10, 25, 50, 75, 100] ∧
    p.seed_list = [1, 2, 3] ∧
    noiseParamsFor nt = .ok p.noise_params_list ∧
    modelsFor par = .ok p.model_names := by
  unfold RunPipeline.init at hp
  split at hp
  · cases hp
  · split at hp
    · cases hp
    · injection hp with hp
      subst hp
      refine ⟨rfl, rfl, rfl, rfl, rfl, rfl, rfl, rfl, rfl, rfl, ?_, ?_⟩ <;> assumption

/-- **C6.** When a noise type is configured, the labeling-ratio universe
collapses to exactly `[1.00]`, and the noise-parameter universe is
`[1,2,3,4,5,6]` for duplicated anomalies and `[0.00,0.01,0.05,0.10,0.25,0.50]`
for both irrelevant features and label contamination; with no noise configured
the ratio universe is `[0.00,0.01,0.05,0.10,0.25,0.50,0.75,1.00]` and the count
universe is `[0,1,5,10,25,50,75,100]`. -/
theorem parameter_universes (sfx mode par : String) (gd : Bool) (thr : ℕ)
    (rsm nt : Option String) (p : Pipeline)
    (hp : RunPipeline.init sfx mode par gd thr rsm nt = .ok p) :
    (nt.isSome = true → p.rla_list = [1.00]) ∧
    (nt = some "duplicated_anomalies" → p.noise_params_list = some [1, 2, 3, 4, 5, 6]) ∧
    (nt = some "irrelevant_features" →
      p.noise_params_list = some [0.00, 0.01, 0.05, 0.10, 0.25, 0.50]) ∧
    (nt = some "label_contamination" →
      p.noise_params_list = some [0.00, 0.01, 0.05, 0.10, 0.25, 0.50]) ∧
    (nt = none → p.rla_list = [0.00, 0.01, 0.05, 0.10, 0.25, 0.50, 0.75, 1.00]) ∧
    p.nla_list = [0, 1, 5, 10, 25, 50, 75, 100] := by
  obtain ⟨-, -, -, -, -, -, -, hrla, hnla, -, hnps, -⟩ := init_fields hp
  refine ⟨fun h => ?_, fun h => ?_, fun h => ?_, fun h => ?_, fun h => ?_, hnla⟩
  · rw [hrla, if_pos h]
  · subst h
    simp [noiseParamsFor] at hnps
    exact hnps.symm
  · subst h
    simp [noiseParamsFor] at hnps
    exact hnps.symm
  · subst h
    simp [noiseParamsFor] at hnps
    exact hnps.symm
  · subst h
    rw [hrla]
    rfl

/-- Witness for C6 at the concrete duplicated-anomalies configuration. -/
theorem parameter_universes_witness :
    pDup.noise_params_list = some [1, 2, 3, 4, 5, 6] :=
  (parameter_universes "exp" "rla" "unsupervise" true 1000 none
    (some "duplicated_anomalies") pDup rfl).2.1 rfl

theorem foldl_seedCheckE_error (p : Pipeline)
    (genE : ℕ → String → Except String DataSplit) (d : String) (e : String)
    (seeds : List ℕ) :
    seeds.foldl (seedCheckE p genE d) (Except.error e) = Except.error e := by
  induction seeds with
  | nil => rfl
  | cons s ss ih =>
      simp only [List.foldl_cons]
      exact ih

theorem zip_map_filter_fst {α : Type} (f : α → Bool) (l : List α) :
    ((l.zip (l.map f)).filter (fun q => q.2)).map Prod.fst = l.filter f := by
  induction l with
  | nil => rfl
  | cons a l ih =>
      simp only [List.map_cons, List.zip_cons_cons, List.filter_cons]
      cases hf : f a
      · simpa [hf] using ih
      · simp [hf, ih]

/-- On a run in which the generator never raises, the fallible filter agrees
with `dataset_filter`. -/
theorem dataset_filterE_ok (p : Pipeline) (genF : ℕ → String → DataSplit)
    (orgList : List String) :
    dataset_filterE p (fun s d => Except.ok (genF s d)) orgList
      = Except.ok (dataset_filter p genF orgList) := by
  have hfold : ∀ (d : String) (seeds : List ℕ) (b : Bool),
      seeds.foldl (seedCheckE p (fun s d' => Except.ok (genF s d')) d) (Except.ok b)
        = Except.ok (seeds.foldl (seedCheck p genF d) b) := by
    intro d seeds
    induction seeds with
    | nil =>
        intro b
        rfl
    | cons s ss ih =>
        intro b
        simp only [List.foldl_cons]
        exact ih _
  have hmapM : ∀ (l : List String),
      l.mapM (fun d => p.seed_list.foldl
          (seedCheckE p (fun s d' => Except.ok (genF s d')) d) (Except.ok true))
        = Except.ok (l.map (fun d => p.seed_list.foldl (seedCheck p genF d) true)) := by
    intro l
    induction l with
    | nil => rfl
    | cons d ds ih =>
        rw [List.mapM_cons, hfold, ih]
        rfl
  unfold dataset_filterE
  rw [hmapM]
  dsimp only
  rw [zip_map_filter_fst]
  rfl

/-- **C4 (counterexample).** The claim fails twice on the code: constructing
the pipeline with the unrecognized labeling mode `"not-a-mode"` succeeds, with
grid dispatch silently using the ratio universe (no error at construction or
dispatch); and a non-configuration error is fatal to the overall run: a
generator exception raised during `dataset_filter` propagates out of the
filter instead of being caught. -/
theorem unknown_mode_ok_and_filter_error_fatal :
    ((RunPipeline.init "exp" "not-a-mode" "supervise" true 1000 none none).isOk = true ∧
      (RunPipeline.init "exp" "not-a-mode" "supervise" true 1000 none none).toOption.map
          labeling_list
        = some [0.00, 0.01, 0.05, 0.10, 0.25, 0.50, 0.75, 1.00]) ∧
    dataset_filterE pU (fun _ _ => Except.error "generator failure") ["a"]
      = Except.error "generator failure" := by
  refine ⟨⟨rfl, rfl⟩, ?_⟩
  rfl

/-- **C4 (amended).** Construction raises exactly for an unrecognized noise
kind or an unrecognized parallel track; an unknown labeling mode is not
validated, causing no error at construction or dispatch (any non-`nla` mode is
treated as ratio mode); inside the trial loop a data-generation failure is not
fatal (the trial is skipped and the run continues with the next trial); but an
error outside that fault boundary is fatal: a generator exception raised
during `dataset_filter` propagates out of the filter and aborts the run. -/
theorem config_error_boundaries (sfx mode par : String) (gd : Bool) (thr : ℕ)
    (rsm nt : Option String) :
    ((RunPipeline.init sfx mode par gd thr rsm nt).isOk = true ↔
      ((nt = none ∨ nt = some "duplicated_anomalies" ∨ nt = some "irrelevant_features" ∨
          nt = some "label_contamination") ∧
        (par = "unsupervise" ∨ par = "semi-supervise" ∨ par = "supervise"))) ∧
    (∀ (p : Pipeline) (gen : Gen) (ad : String → Adapter) (me : Metric) (i : ℕ)
        (tr : Trial) (st : RunOutput) (rest : List Trial),
        gen tr.seed tr.dataset tr.la tr.noiseParam = none →
        runAux p gen ad me i (tr :: rest) st = runAux p gen ad me (i + 1) rest st) ∧
    (∀ (p : Pipeline) (genE : ℕ → String → Except String DataSplit) (s0 : ℕ)
        (seeds : List ℕ) (d0 : String) (drest : List String) (e : String),
        p.seed_list = s0 :: seeds → genE s0 d0 = Except.error e →
        dataset_filterE p genE (d0 :: drest) = Except.error e) := by
  refine ⟨?_, ?_, ?_⟩
  · have hn : (noiseParamsFor nt).isOk = true ↔
        (nt = none ∨ nt = some "duplicated_anomalies" ∨ nt = some "irrelevant_features" ∨
          nt = some "label_contamination") := by
      cases nt with
      | none => simp [noiseParamsFor, Except.isOk, Except.toBool]
      | some s =>
          simp only [noiseParamsFor]
          split_ifs <;> simp_all [Except.isOk, Except.toBool]
    have hm : (modelsFor par).isOk = true ↔
        (par = "unsupervise" ∨ par = "semi-supervise" ∨ par = "supervise") := by
      unfold modelsFor
      split_ifs <;> simp_all [Except.isOk, Except.toBool]
    rw [← hn, ← hm]
    unfold RunPipeline.init
    cases h1 : noiseParamsFor nt <;> cases h2 : modelsFor par <;>
      simp [Except.isOk, Except.toBool]
  · intro p gen ad me i tr st rest hgen
    have h1 : processTrial p gen ad me i tr st = st := by
      unfold processTrial
      split
      · rfl
      · rw [hgen]
    simp only [runAux, h1]
  · intro p genE s0 seeds d0 drest e hs hgen
    have hstep : seedCheckE p genE d0 (Except.ok true) s0 = Except.error e := by
      unfold seedCheckE
      rw [hgen]
    have hfold : p.seed_list.foldl (seedCheckE p genE d0) (Except.ok true)
        = Except.error e := by
      rw [hs]
      simp only [List.foldl_cons, hstep]
      exact foldl_seedCheckE_error p genE d0 e seeds
    unfold dataset_filterE
    rw [List.mapM_cons, hfold]
    rfl

/-- Witness for the amended C4: a generator that raises under the first seed
makes the filter — and hence the run — fail with that error. -/
theorem config_error_boundaries_witness :
    dataset_filterE pU (fun _ _ => Except.error "E") ["a", "b"] = Except.error "E" :=
  (config_error_boundaries "exp" "rla" "unsupervise" true 1000 none none).2.2 pU
    (fun _ _ => Except.error "E") 1 [2, 3] "a" ["b"] "E" rfl rfl

/-! ## Per-model fault boundary -/

/-- **C2.** `RunPipeline.model_fit` never raises: for every adapter whose
instantiation, fit, scoring, or metric computation throws any exception,
`model_fit` returns fit time `None`, inference time `None`, and the metrics
dictionary `{'aucroc': NaN, 'aucpr': NaN}`, rather than propagating the
exception to the caller. -/
theorem model_fit_null_on_failure (ad : Adapter) (me : Metric) (name : String)
    (data : DataSplit)
    (h : ad.init = none ∨ mfFitted ad data = none ∨ mfScore ad name data = none ∨
      mfMetric ad me name data = none) :
    model_fit ad me name data = (none, none, MVal.nan, MVal.nan) := by
  have hm : mfMetric ad me name data = none := by
    rcases h with h | h | h | h
    · simp [mfMetric, mfScore, mfFitted, h]
    · simp [mfMetric, mfScore, h]
    · simp [mfMetric, h]
    · exact h
  unfold model_fit
  cases hf : mfFitted ad data with
  | none => rfl
  | some ft =>
      cases hsc : mfScore ad name data with
      | none => rfl
      | some sc =>
          rw [hm]

/-- Witness for C2: an adapter whose `fit` always raises yields the null
result. -/
theorem model_fit_null_on_failure_witness :
    model_fit adFail meTriv "KNN" dataC = (none, none, MVal.nan, MVal.nan) :=
  model_fit_null_on_failure adFail meTriv "KNN" dataC (Or.inr (Or.inl rfl))

/-! ## Unsupervised fitting and scoring special cases -/

/-- **C10.** Model families fitting in a strictly unsupervised
autoencoder-style mode (`AutoEncoder`, `VAE`) are fit on only the
normal-labeled (label 0) subset of the training split, and exactly one model
family (DAGMM) is scored with both train and test features while every other
family of the unsupervised registry is scored with test features only. -/
theorem unsupervised_special_cases (name : String) (Xtr Xte : List Row)
    (ytr : List ℕ) (hname : name = "AutoEncoder" ∨ name = "VAE") :
    ((PYOD.fitFilter name Xtr ytr).1.zip (PYOD.fitFilter name Xtr ytr).2
        = (Xtr.zip ytr).filter (fun q => q.2 == 0)) ∧
    (∀ l ∈ (PYOD.fitFilter name Xtr ytr).2, l = 0) ∧
    ("DAGMM" ∈ pU.model_names ∧
      ∀ m ∈ pU.model_names,
        (m = "DAGMM" → scoreInput m Xtr Xte = ScoreInput.both Xtr Xte) ∧
        (m ≠ "DAGMM" → scoreInput m Xtr Xte = ScoreInput.testOnly Xte)) := by
  have hf : PYOD.fitFilter name Xtr ytr
      = ((Xtr.zip ytr).filter (fun q => q.2 == 0)).unzip := by
    unfold PYOD.fitFilter
    rw [if_pos hname]
  refine ⟨?_, ?_, ?_, ?_⟩
  · rw [hf]
    exact List.zip_unzip _
  · intro l hl
    rw [hf, List.unzip_snd] at hl
    obtain ⟨q, hq, rfl⟩ := List.mem_map.mp hl
    have := List.of_mem_filter hq
    simpa using this
  · decide
  · intro m hm
    constructor
    · intro h
      subst h
      unfold scoreInput
      rw [if_pos rfl]
    · intro h
      unfold scoreInput
      rw [if_neg h]

/-- Witness for C10: `VAE` on a concrete two-sample training split keeps
exactly the label-0 sample. -/
theorem unsupervised_special_cases_witness :
    (PYOD.fitFilter "VAE" [[(1 : ℚ)], [2]] [0, 1]).1.zip
        (PYOD.fitFilter "VAE" [[(1 : ℚ)], [2]] [0, 1]).2
      = ([[(1 : ℚ)], [2]].zip [0, 1]).filter (fun q => q.2 == 0) :=
  (unsupervised_special_cases "VAE" [[(1 : ℚ)], [2]] [[3]] [0, 1] (Or.inr rfl)).1

/-! ## Dataset admissibility filter -/

theorem seedCheck_false (p : Pipeline) (genF : ℕ → String → DataSplit)
    (d : String) (s : ℕ) : seedCheck p genF d false s = false := by
  unfold seedCheck
  split
  · rfl
  · split
    · rfl
    · split
      · rfl
      · rfl

theorem foldl_seedCheck_false (p : Pipeline) (genF : ℕ → String → DataSplit)
    (d : String) (seeds : List ℕ) :
    seeds.foldl (seedCheck p genF d) false = false := by
  induction seeds with
  | nil => rfl
  | cons s ss ih =>
      simp only [List.foldl_cons, seedCheck_false]
      exact ih

theorem foldl_seedCheck_true_iff (p : Pipeline) (genF : ℕ → String → DataSplit)
    (d : String) (seeds : List ℕ) :
    seeds.foldl (seedCheck p genF d) true = true ↔
      ∀ s ∈ seeds, seedCheck p genF d true s = true := by
  induction seeds with
  | nil => simp
  | cons s ss ih =>
      simp only [List.foldl_cons, List.mem_cons]
      cases h : seedCheck p genF d true s
      · rw [foldl_seedCheck_false]
        constructor
        · intro hfalse
          cases hfalse
        · intro hall
          have hs := hall s (Or.inl rfl)
          rw [h] at hs
          cases hs
      · rw [ih]
        constructor
        · intro hss x hx
          rcases hx with hx | hx
          · rw [hx]
            exact h
          · exact hss x hx
        · intro hall x hx
          exact hall x (Or.inr hx)

theorem seedCheck_true_iff (p : Pipeline) (genF : ℕ → String → DataSplit)
    (d : String) (s : ℕ) :
    seedCheck p genF d true s = true ↔
      (p.generate_duplicates = true ∨ p.n_samples_threshold ≤ sizeAt genF s d) ∧
      ((p.mode = "nla" ∧ p.nla_list.getLast?.getD 0 ≤ (genF s d).y_train.sum) ∨
       (p.mode = "rla" ∧ 0 < (genF s d).y_train.sum)) := by
  unfold seedCheck sizeAt
  split_ifs with h1 h2 h3
  · simp only [Bool.and_eq_true, Bool.not_eq_true', decide_eq_true_eq] at h1
    constructor
    · intro hfalse
      cases hfalse
    · rintro ⟨hA, -⟩
      exfalso
      rcases hA with hA | hA
      · exact absurd h1.1 (by simp [hA])
      · omega
  · simp only [Bool.and_eq_true, Bool.not_eq_true', decide_eq_true_eq, not_and] at h1 h2
    constructor
    · intro _
      refine ⟨?_, Or.inl h2⟩
      by_cases hgd : p.generate_duplicates
      · exact Or.inl hgd
      · have := h1 (Bool.not_eq_true _ ▸ (by simpa using hgd))
        omega
    · intro _
      rfl
  · simp only [Bool.and_eq_true, Bool.not_eq_true', decide_eq_true_eq, not_and] at h1 h2 h3
    constructor
    · intro _
      refine ⟨?_, Or.inr h3⟩
      by_cases hgd : p.generate_duplicates
      · exact Or.inl hgd
      · have := h1 (Bool.not_eq_true _ ▸ (by simpa using hgd))
        omega
    · intro _
      rfl
  · simp only [Bool.and_eq_true, Bool.not_eq_true', decide_eq_true_eq, not_and] at h1 h2 h3
    constructor
    · intro hfalse
      cases hfalse
    · rintro ⟨-, hB⟩
      rcases hB with ⟨hm1, hm2⟩ | ⟨hm1, hm2⟩
      · exact absurd hm2 (by simpa using h2 hm1)
      · exact absurd hm2 (by simpa using h3 hm1)

theorem mem_dataset_filter (p : Pipeline) (genF : ℕ → String → DataSplit)
    (orgList : List String) (d : String) :
    d ∈ dataset_filter p genF orgList ↔
      d ∈ orgList ∧ p.seed_list.foldl (seedCheck p genF d) true = true := by
  simp only [dataset_filter]
  rw [List.mem_mergeSort, List.mem_filter]

theorem dataset_filter_sorted (p : Pipeline) (genF : ℕ → String → DataSplit)
    (orgList : List String) :
    (dataset_filter p genF orgList).Pairwise
      (fun a b => sizeAt genF (p.seed_list.getLast?.getD 0) a
          ≤ sizeAt genF (p.seed_list.getLast?.getD 0) b) := by
  simp only [dataset_filter]
  have h := @List.sorted_mergeSort String
    (fun a b => decide (sizeAt genF (p.seed_list.getLast?.getD 0) a
        ≤ sizeAt genF (p.seed_list.getLast?.getD 0) b))
    (fun a b c hab hbc => by
      simp only [decide_eq_true_eq] at hab hbc ⊢
      omega)
    (fun a b => by
      simp only [Bool.or_eq_true, decide_eq_true_eq]
      omega)
    (orgList.filter (fun d => p.seed_list.foldl (seedCheck p genF d) true))
  exact h.imp (fun hab => by simpa using hab)

/-- **C3.** `RunPipeline.dataset_filter` returns exactly the candidate datasets
that satisfy the admissibility policy under every configured seed — in count
mode (`nla`) the training split must contain at least `max(count list)` labeled
anomalies under each seed, in ratio mode (`rla`) at least one, and with sample
duplication disabled the combined train+test sample count must meet the
threshold — and the returned list is sorted ascending by combined train+test
sample count (as in the source, measured on the split generated under the last
configured seed). -/
theorem dataset_filter_admissibility (genF : ℕ → String → DataSplit)
    (orgList : List String) (sfx mode par : String) (gd : Bool) (thr : ℕ)
    (rsm nt : Option String) (p : Pipeline)
    (hp : RunPipeline.init sfx mode par gd thr rsm nt = .ok p) :
    (∀ d, d ∈ dataset_filter p genF orgList ↔
        d ∈ orgList ∧ ∀ s ∈ ([1, 2, 3] : List ℕ),
          (gd = true ∨ thr ≤ sizeAt genF s d) ∧
          ((mode = "nla" ∧ p.nla_list.foldr max 0 ≤ (genF s d).y_train.sum) ∨
           (mode = "rla" ∧ 0 < (genF s d).y_train.sum))) ∧
    (dataset_filter p genF orgList).Pairwise
      (fun a b => sizeAt genF 3 a ≤ sizeAt genF 3 b) := by
  obtain ⟨hmode, -, hgd, hthr, -, -, -, -, hnla, hseeds, -, -⟩ := init_fields hp
  constructor
  · intro d
    rw [mem_dataset_filter, foldl_seedCheck_true_iff, hseeds]
    refine and_congr_right' (forall_congr' (fun s => imp_congr_right (fun hs => ?_)))
    rw [seedCheck_true_iff, hmode, hgd, hthr, hnla]
    have hmax : (([0, 1, 5, 10, 25, 50, 75, 100] : List ℕ).getLast?.getD 0)
        = ([0, 1, 5, 10, 25, 50, 75, 100] : List ℕ).foldr max 0 := by decide
    rw [hmax]
  · have h := dataset_filter_sorted p genF orgList
    rw [hseeds] at h
    simp only [show (([1, 2, 3] : List ℕ).getLast?.getD 0) = 3 from rfl] at h
    exact h

/-- Witness for C3: the filtered concrete two-dataset pool is sorted by
combined sample count. -/
theorem dataset_filter_admissibility_witness :
    (dataset_filter pU genC ["a", "b"]).Pairwise
      (fun a b => sizeAt genC 3 a ≤ sizeAt genC 3 b) :=
  (dataset_filter_admissibility genC ["a", "b"] "exp" "rla" "unsupervise" true 1000
    none none pU rfl).2

/-! ## Run-loop bookkeeping -/

theorem foldl_modelStep_spec (p : Pipeline) (ad : String → Adapter) (me : Metric)
    (data : DataSplit) (i : ℕ) (tr : Trial) (names : List String) (st : RunOutput) :
    ((names.foldl (modelStep p ad me data i tr) st).dfAUCROC
        = st.dfAUCROC ++ names.map (fun n => ((i, n), (model_fit (ad n) me n data).2.2.1))) ∧
    ((names.foldl (modelStep p ad me data i tr) st).dfAUCPR
        = st.dfAUCPR ++ names.map (fun n => ((i, n), (model_fit (ad n) me n data).2.2.2))) ∧
    ((names.foldl (modelStep p ad me data i tr) st).df_time_fit
        = st.df_time_fit ++ names.map (fun n => ((i, n), (model_fit (ad n) me n data).1))) ∧
    ((names.foldl (modelStep p ad me data i tr) st).df_time_inference
        = st.df_time_inference
            ++ names.map (fun n => ((i, n), (model_fit (ad n) me n data).2.1))) ∧
    ((names.foldl (modelStep p ad me data i tr) st).results
        = st.results ++ names.map (fun n =>
            ⟨tr, n, (model_fit (ad n) me n data).2.2.1, (model_fit (ad n) me n data).2.2.2,
              (model_fit (ad n) me n data).1, (model_fit (ad n) me n data).2.1⟩)) := by
  induction names generalizing st with
  | nil => simp
  | cons n ns ih =>
      obtain ⟨h1, h2, h3, h4, h5⟩ := ih (modelStep p ad me data i tr st n)
      simp only [List.foldl_cons, List.map_cons]
      refine ⟨?_, ?_, ?_, ?_, ?_⟩
      · rw [h1]
        simp [modelStep]
      · rw [h2]
        simp [modelStep]
      · rw [h3]
        simp [modelStep]
      · rw [h4]
        simp [modelStep]
      · rw [h5]
        simp [modelStep]

theorem map_fst_pairs {α : Type} (names : List String) (i : ℕ) (v : String → α) :
    (names.map (fun n => ((i, n), v n))).map Prod.fst = names.map (fun n => (i, n)) := by
  simp [List.map_map, Function.comp]

theorem keysInv_foldl {p : Pipeline} {ad : String → Adapter} {me : Metric}
    {data : DataSplit} {tr : Trial} {i : ℕ} (names : List String)
    (hnd : names.Nodup) {st : RunOutput} (h : KeysInv i st) :
    KeysInv (i + 1) (names.foldl (modelStep p ad me data i tr) st) := by
  obtain ⟨h1, h2, h3, h4, h5⟩ := foldl_modelStep_spec p ad me data i tr names st
  have hinj : Function.Injective (fun n : String => (i, n)) := by
    intro a b hab
    simpa using congrArg Prod.snd hab
  constructor
  · rw [h2, h1, List.map_append, List.map_append, map_fst_pairs, map_fst_pairs, h.keysP]
  · rw [h3, h1, List.map_append, List.map_append, map_fst_pairs, map_fst_pairs, h.keysF]
  · rw [h4, h1, List.map_append, List.map_append, map_fst_pairs, map_fst_pairs, h.keysI]
  · rw [h1, List.map_append, map_fst_pairs]
    refine List.Nodup.append h.nodup (hnd.map hinj) ?_
    rw [List.disjoint_left]
    intro a ha hmem
    obtain ⟨n, -, rfl⟩ := List.mem_map.mp hmem
    exact absurd (h.bound _ ha) (by simp)
  · intro k hk
    rw [h1, List.map_append, map_fst_pairs] at hk
    rcases List.mem_append.mp hk with hk | hk
    · exact Nat.lt_succ_of_lt (h.bound k hk)
    · obtain ⟨n, -, rfl⟩ := List.mem_map.mp hk
      simp
  · rw [h1, h5, List.length_append, List.length_append, List.length_map,
      List.length_map, h.lenR]

theorem keysInv_processTrial {p : Pipeline} {gen : Gen} {ad : String → Adapter}
    {me : Metric} {tr : Trial} {i : ℕ} (hnd : p.model_names.Nodup)
    {st : RunOutput} (h : KeysInv i st) :
    KeysInv (i + 1) (processTrial p gen ad me i tr st) := by
  have hmono : KeysInv (i + 1) st :=
    ⟨h.keysP, h.keysF, h.keysI, h.nodup,
      fun k hk => Nat.lt_succ_of_lt (h.bound k hk), h.lenR⟩
  unfold processTrial
  split
  · exact hmono
  · split
    · exact hmono
    · exact keysInv_foldl p.model_names hnd h

theorem keysInv_runAux {p : Pipeline} {gen : Gen} {ad : String → Adapter}
    {me : Metric} (hnd : p.model_names.Nodup) (trials : List Trial) :
    ∀ (i : ℕ) (st : RunOutput), KeysInv i st →
      ∃ j, KeysInv j (runAux p gen ad me i trials st) := by
  induction trials with
  | nil => exact fun i st h => ⟨i, h⟩
  | cons tr rest ih => exact fun i st h => ih (i + 1) _ (keysInv_processTrial hnd h)

/-- **C5.** Result tables are monotonically filled and each (trial, model) cell
is written at most once: after N trial/model pairs have been processed, exactly
N cells of each table are non-empty (one per `results` row), independent of
whether any earlier trial succeeded or failed. -/
theorem tables_write_once (p : Pipeline) (gen : Gen) (ad : String → Adapter)
    (me : Metric) (trials : List Trial) (hnd : p.model_names.Nodup) :
    ((runLoop p gen ad me trials).dfAUCROC.map Prod.fst).Nodup ∧
    ((runLoop p gen ad me trials).dfAUCPR.map Prod.fst).Nodup ∧
    ((runLoop p gen ad me trials).df_time_fit.map Prod.fst).Nodup ∧
    ((runLoop p gen ad me trials).df_time_inference.map Prod.fst).Nodup ∧
    (runLoop p gen ad me trials).dfAUCROC.length
        = (runLoop p gen ad me trials).results.length ∧
    (runLoop p gen ad me trials).dfAUCPR.length
        = (runLoop p gen ad me trials).results.length ∧
    (runLoop p gen ad me trials).df_time_fit.length
        = (runLoop p gen ad me trials).results.length ∧
    (runLoop p gen ad me trials).df_time_inference.length
        = (runLoop p gen ad me trials).results.length := by
  simp only [runLoop]
  obtain ⟨j, h⟩ := @keysInv_runAux p gen ad me hnd trials 0 emptyOut
    ⟨rfl, rfl, rfl, List.nodup_nil, fun k hk => absurd hk (by simp [emptyOut]), rfl⟩
  have lP : (runAux p gen ad me 0 trials emptyOut).dfAUCPR.length
      = (runAux p gen ad me 0 trials emptyOut).dfAUCROC.length := by
    have := congrArg List.length h.keysP
    simpa using this
  have lF : (runAux p gen ad me 0 trials emptyOut).df_time_fit.length
      = (runAux p gen ad me 0 trials emptyOut).dfAUCROC.length := by
    have := congrArg List.length h.keysF
    simpa using this
  have lI : (runAux p gen ad me 0 trials emptyOut).df_time_inference.length
      = (runAux p gen ad me 0 trials emptyOut).dfAUCROC.length := by
    have := congrArg List.length h.keysI
    simpa using this
  refine ⟨h.nodup, ?_, ?_, ?_, h.lenR, ?_, ?_, ?_⟩
  · rw [h.keysP]
    exact h.nodup
  · rw [h.keysF]
    exact h.nodup
  · rw [h.keysI]
    exact h.nodup
  · rw [lP]
    exact h.lenR
  · rw [lF]
    exact h.lenR
  · rw [lI]
    exact h.lenR

/-- Witness for C5 on a concrete one-trial, one-model run. -/
theorem tables_write_once_witness :
    ((runLoop pTiny genOk (fun _ => adOk) meTriv trialsC).dfAUCROC.map Prod.fst).Nodup ∧
    ((runLoop pTiny genOk (fun _ => adOk) meTriv trialsC).dfAUCPR.map Prod.fst).Nodup ∧
    ((runLoop pTiny genOk (fun _ => adOk) meTriv trialsC).df_time_fit.map Prod.fst).Nodup ∧
    ((runLoop pTiny genOk (fun _ => adOk) meTriv trialsC).df_time_inference.map
        Prod.fst).Nodup ∧
    (runLoop pTiny genOk (fun _ => adOk) meTriv trialsC).dfAUCROC.length
        = (runLoop pTiny genOk (fun _ => adOk) meTriv trialsC).results.length ∧
    (runLoop pTiny genOk (fun _ => adOk) meTriv trialsC).dfAUCPR.length
        = (runLoop pTiny genOk (fun _ => adOk) meTriv trialsC).results.length ∧
    (runLoop pTiny genOk (fun _ => adOk) meTriv trialsC).df_time_fit.length
        = (runLoop pTiny genOk (fun _ => adOk) meTriv trialsC).results.length ∧
    (runLoop pTiny genOk (fun _ => adOk) meTriv trialsC).df_time_inference.length
        = (runLoop pTiny genOk (fun _ => adOk) meTriv trialsC).results.length :=
  tables_write_once pTiny genOk (fun _ => adOk) meTriv trialsC (by decide)

theorem savesInv_modelStep {p : Pipeline} (ad : String → Adapter) (me : Metric)
    (data : DataSplit) (i : ℕ) (tr : Trial) (n : String) {st : RunOutput}
    (h : SavesInv p st) : SavesInv p (modelStep p ad me data i tr st n) := by
  have hA : (modelStep p ad me data i tr st n).dfAUCROC
      = st.dfAUCROC ++ [((i, n), (model_fit (ad n) me n data).2.2.1)] := rfl
  have hP : (modelStep p ad me data i tr st n).dfAUCPR
      = st.dfAUCPR ++ [((i, n), (model_fit (ad n) me n data).2.2.2)] := rfl
  have hF : (modelStep p ad me data i tr st n).df_time_fit
      = st.df_time_fit ++ [((i, n), (model_fit (ad n) me n data).1)] := rfl
  have hI : (modelStep p ad me data i tr st n).df_time_inference
      = st.df_time_inference ++ [((i, n), (model_fit (ad n) me n data).2.1)] := rfl
  have hR : (modelStep p ad me data i tr st n).results
      = st.results ++ [⟨tr, n, (model_fit (ad n) me n data).2.2.1,
          (model_fit (ad n) me n data).2.2.2, (model_fit (ad n) me n data).1,
          (model_fit (ad n) me n data).2.1⟩] := rfl
  have hS : (modelStep p ad me data i tr st n).saves
      = st.saves ++
        [{ fileA := ("AUCROC_" ++ p.suffix ++ ".csv",
              st.dfAUCROC ++ [((i, n), (model_fit (ad n) me n data).2.2.1)])
           fileP := ("AUCPR_" ++ p.suffix ++ ".csv",
              st.dfAUCPR ++ [((i, n), (model_fit (ad n) me n data).2.2.2)])
           fileF := ("Time(fit)_" ++ p.suffix ++ ".csv",
              st.df_time_fit ++ [((i, n), (model_fit (ad n) me n data).1)])
           fileI := ("Time(inference)_" ++ p.suffix ++ ".csv",
              st.df_time_inference ++ [((i, n), (model_fit (ad n) me n data).2.1)]) }]
      := rfl
  constructor
  · simp [hS, hA, h.lenA]
  · simp [hP, hA, h.lenP]
  · simp [hF, hA, h.lenF]
  · simp [hI, hA, h.lenI]
  · simp [hR, hA, h.lenR]
  · intro k hk
    rw [hS] at hk ⊢
    rw [List.length_append, List.length_singleton] at hk
    rcases Nat.lt_succ_iff_lt_or_eq.mp hk with hk' | hk'
    · have hkA : k + 1 ≤ st.dfAUCROC.length := by
        rw [← h.lenA]
        omega
      have hkP : k + 1 ≤ st.dfAUCPR.length := by
        rw [h.lenP, ← h.lenA]
        omega
      have hkF : k + 1 ≤ st.df_time_fit.length := by
        rw [h.lenF, ← h.lenA]
        omega
      have hkI : k + 1 ≤ st.df_time_inference.length := by
        rw [h.lenI, ← h.lenA]
        omega
      rw [List.getElem?_append, if_pos hk', h.snap k hk', hA, hP, hF, hI,
        List.take_append_of_le_length hkA, List.take_append_of_le_length hkP,
        List.take_append_of_le_length hkF, List.take_append_of_le_length hkI]
    · subst hk'
      rw [List.getElem?_append_right (Nat.le_refl _), Nat.sub_self,
        List.getElem?_cons_zero, hA, hP, hF, hI]
      have tA : (st.dfAUCROC ++ [((i, n), (model_fit (ad n) me n data).2.2.1)]).take
          (st.saves.length + 1)
          = st.dfAUCROC ++ [((i, n), (model_fit (ad n) me n data).2.2.1)] := by
        apply List.take_of_length_le
        simp [h.lenA]
      have tP : (st.dfAUCPR ++ [((i, n), (model_fit (ad n) me n data).2.2.2)]).take
          (st.saves.length + 1)
          = st.dfAUCPR ++ [((i, n), (model_fit (ad n) me n data).2.2.2)] := by
        apply List.take_of_length_le
        simp [h.lenA, h.lenP]
      have tF : (st.df_time_fit ++ [((i, n), (model_fit (ad n) me n data).1)]).take
          (st.saves.length + 1)
          = st.df_time_fit ++ [((i, n), (model_fit (ad n) me n data).1)] := by
        apply List.take_of_length_le
        simp [h.lenA, h.lenF]
      have tI : (st.df_time_inference ++ [((i, n), (model_fit (ad n) me n data).2.1)]).take
          (st.saves.length + 1)
          = st.df_time_inference ++ [((i, n), (model_fit (ad n) me n data).2.1)] := by
        apply List.take_of_length_le
        simp [h.lenA, h.lenI]
      rw [tA, tP, tF, tI]

theorem savesInv_foldl {p : Pipeline} {ad : String → Adapter} {me : Metric}
    {data : DataSplit} {i : ℕ} {tr : Trial} (names : List String) {st : RunOutput}
    (h : SavesInv p st) : SavesInv p (names.foldl (modelStep p ad me data i tr) st) := by
  induction names generalizing st with
  | nil => exact h
  | cons n ns ih => exact ih (savesInv_modelStep ad me data i tr n h)

theorem savesInv_processTrial {p : Pipeline} {gen : Gen} {ad : String → Adapter}
    {me : Metric} {i : ℕ} {tr : Trial} {st : RunOutput} (h : SavesInv p st) :
    SavesInv p (processTrial p gen ad me i tr st) := by
  unfold processTrial
  split
  · exact h
  · split
    · exact h
    · exact savesInv_foldl p.model_names h

theorem savesInv_runAux {p : Pipeline} {gen : Gen} {ad : String → Adapter}
    {me : Metric} (trials : List Trial) :
    ∀ (i : ℕ) (st : RunOutput), SavesInv p st →
      SavesInv p (runAux p gen ad me i trials st) := by
  induction trials with
  | nil => exact fun i st h => h
  | cons tr rest ih => exact fun i st h => ih (i + 1) _ (savesInv_processTrial h)

/-- **C7.** After every single trial's model-fit call returns, all four result
tables (ROC-AUC, PR-AUC, fit time, inference time) are serialized in full to
durable storage, overwriting the previous snapshot, to files named by the
pattern `<MetricKind>_<suffix>.csv` where the suffix encodes the experiment
configuration: there is one snapshot group per model-fit call, and the k-th
group holds the four files `AUCROC_/AUCPR_/Time(fit)_/Time(inference)_` +
suffix + `.csv`, each with the full table as of the (k+1)-st write. -/
theorem snapshot_after_every_fit (p : Pipeline) (gen : Gen) (ad : String → Adapter)
    (me : Metric) (trials : List Trial) :
    (runLoop p gen ad me trials).saves.length
        = (runLoop p gen ad me trials).results.length ∧
    ∀ k, k < (runLoop p gen ad me trials).saves.length →
      (runLoop p gen ad me trials).saves[k]? = some
        { fileA := ("AUCROC_" ++ p.suffix ++ ".csv",
            (runLoop p gen ad me trials).dfAUCROC.take (k + 1))
          fileP := ("AUCPR_" ++ p.suffix ++ ".csv",
            (runLoop p gen ad me trials).dfAUCPR.take (k + 1))
          fileF := ("Time(fit)_" ++ p.suffix ++ ".csv",
            (runLoop p gen ad me trials).df_time_fit.take (k + 1))
          fileI := ("Time(inference)_" ++ p.suffix ++ ".csv",
            (runLoop p gen ad me trials).df_time_inference.take (k + 1)) } := by
  have h := @savesInv_runAux p gen ad me trials 0 emptyOut
    ⟨rfl, rfl, rfl, rfl, rfl, fun k hk => absurd hk (by simp [emptyOut])⟩
  exact ⟨h.lenA.trans h.lenR.symm, h.snap⟩

/-- Witness for C7: in a concrete one-trial, one-model run the single snapshot
group holds the four configuration-named files, each with the full table. -/
theorem snapshot_after_every_fit_witness :
    (runLoop pTiny genOk (fun _ => adOk) meTriv trialsC).saves[0]? = some
      { fileA := ("AUCROC_" ++ pTiny.suffix ++ ".csv",
          (runLoop pTiny genOk (fun _ => adOk) meTriv trialsC).dfAUCROC.take 1)
        fileP := ("AUCPR_" ++ pTiny.suffix ++ ".csv",
          (runLoop pTiny genOk (fun _ => adOk) meTriv trialsC).dfAUCPR.take 1)
        fileF := ("Time(fit)_" ++ pTiny.suffix ++ ".csv",
          (runLoop pTiny genOk (fun _ => adOk) meTriv trialsC).df_time_fit.take 1)
        fileI := ("Time(inference)_" ++ pTiny.suffix ++ ".csv",
          (runLoop pTiny genOk (fun _ => adOk) meTriv trialsC).df_time_inference.take 1) } :=
  (snapshot_after_every_fit pTiny genOk (fun _ => adOk) meTriv trialsC).2 0 (by decide)

/-! ## Trial skipping -/

/-- **C8.** When the parallel track is `unsupervise` and no noise type is
configured, every grid trial whose labeling parameter differs from 0.0 is
skipped before data generation: the run state is unchanged, so no model is fit
and no result cell is written for it, and only labeling-parameter-0.0 trials
produce result rows on that track. -/
theorem unsupervise_skips_nonzero_la (p : Pipeline) (hpar : p.parallel = "unsupervise")
    (hnt : p.noise_type = none) :
    (∀ (gen : Gen) (ad : String → Adapter) (me : Metric) (i : ℕ) (tr : Trial)
        (st : RunOutput), tr.la ≠ 0 → processTrial p gen ad me i tr st = st) ∧
    (∀ (gen : Gen) (ad : String → Adapter) (me : Metric) (trials : List Trial)
        (r : ResultRow), r ∈ (runLoop p gen ad me trials).results →
        r.params.la = 0) := by
  have hskip : ∀ (gen : Gen) (ad : String → Adapter) (me : Metric) (i : ℕ) (tr : Trial)
      (st : RunOutput), tr.la ≠ 0 → processTrial p gen ad me i tr st = st := by
    intro gen ad me i tr st hla
    unfold processTrial
    rw [if_pos ⟨hpar, hla, hnt⟩]
  refine ⟨hskip, ?_⟩
  intro gen ad me trials
  suffices hgen : ∀ (ts : List Trial) (i : ℕ) (st : RunOutput),
      (∀ r ∈ st.results, r.params.la = 0) →
      ∀ r ∈ (runAux p gen ad me i ts st).results, r.params.la = 0 by
    intro r hr
    exact hgen trials 0 emptyOut (fun r hr => absurd hr (by simp [emptyOut])) r hr
  intro ts
  induction ts with
  | nil => exact fun i st h => h
  | cons tr rest ih =>
      intro i st h
      simp only [runAux]
      apply ih
      by_cases hla : tr.la = 0
      · unfold processTrial
        split
        · exact h
        · split
          · exact h
          · rename_i data heq
            rw [(foldl_modelStep_spec p ad me data i tr p.model_names st).2.2.2.2]
            intro r hr
            rcases List.mem_append.mp hr with hr | hr
            · exact h r hr
            · obtain ⟨n, -, rfl⟩ := List.mem_map.mp hr
              simpa using hla
      · rw [hskip gen ad me i tr st hla]
        exact h

/-- Witness for C8: a nonzero-ratio trial on the unsupervised no-noise track
leaves the state unchanged. -/
theorem unsupervise_skips_nonzero_la_witness :
    processTrial pTiny genOk (fun _ => adOk) meTriv 0 (Trial.mk3 (some "d") 1 1) emptyOut
      = emptyOut :=
  (unsupervise_skips_nonzero_la pTiny rfl rfl).1 genOk (fun _ => adOk) meTriv 0
    (Trial.mk3 (some "d") 1 1) emptyOut (by simp [Trial.la])

/-- **C9.** For every trial whose data generation raises an exception, that
trial is skipped entirely — the run state is unchanged, so no model is fit, no
result row is appended, and no table cell is written for that trial — and the
run continues with the next trial. -/
theorem datagen_failure_skips_trial (p : Pipeline) (gen : Gen) (ad : String → Adapter)
    (me : Metric) (i : ℕ) (tr : Trial) (st : RunOutput) (rest : List Trial)
    (hgen : gen tr.seed tr.dataset tr.la tr.noiseParam = none) :
    processTrial p gen ad me i tr st = st ∧
    runAux p gen ad me i (tr :: rest) st = runAux p gen ad me (i + 1) rest st := by
  have h1 : processTrial p gen ad me i tr st = st := by
    unfold processTrial
    split
    · rfl
    · rw [hgen]
  exact ⟨h1, by simp only [runAux, h1]⟩

/-- Witness for C9: a trial whose data generation fails leaves the state
unchanged. -/
theorem datagen_failure_skips_trial_witness :
    processTrial pTiny genNone (fun _ => adOk) meTriv 0 (Trial.mk3 (some "d") 0 1) emptyOut
      = emptyOut :=
  (datagen_failure_skips_trial pTiny genNone (fun _ => adOk) meTriv 0
    (Trial.mk3 (some "d") 0 1) emptyOut [] rfl).1

end ADBench
